import Mathlib

/-!
Shallow embedding of the two scripts of the repository
(exec1_update_queue.py and exec2_read_queue.py) and proofs of the
specified properties.

The database is modelled as a list of rows of the queues table; server
time NOW() and the possible failure points (connection failure,
database-driver error during execute, an unexpected generic exception in
the script body) are explicit fields of a World value.  Each script is a
pure function from a World to a RunResult recording the returned boolean,
the persistent database state after the call, whether commit or rollback
ran, the connection and cursor lifecycle, whether an exception escaped
the function, the trace of executed parameterized statements and the
final report the script prints.
-/

/-- A row of the queues table (section 3 of the spec: id, clinic_id,
queue_status, created_at, updated_at).  Timestamps are modelled as
natural numbers. -/
structure QueueRecord where
  id : Int
  clinic_id : Int
  queue_status : String
  created_at : Nat
  updated_at : Nat
deriving Repr, DecidableEq

/-- The persistent database state: the rows of the queues table. -/
abbrev DB := List QueueRecord

/-- A value bound to a placeholder of a parameterized statement. -/
inductive SqlParam where
  | str (s : String)
  | int (n : Int)
deriving Repr, DecidableEq

/-- Effect of the statement
UPDATE queues SET queue_status = s, updated_at = NOW() WHERE id = qid
on the table: every row whose id matches is rewritten. -/
def sqlUpdateQueues (db : DB) (s : String) (now : Nat) (qid : Int) : DB :=
  db.map (fun r =>
    if r.id = qid then { r with queue_status := s, updated_at := now } else r)

/-- Rows produced by the RETURNING id, clinic_id, queue_status, updated_at
clause of the update statement. -/
def sqlUpdateReturning (db : DB) (s : String) (now : Nat) (qid : Int) :
    List (Int × Int × String × Nat) :=
  (db.filter (fun r => r.id == qid)).map (fun r => (r.id, r.clinic_id, s, now))

/-- Rows produced by
SELECT id, clinic_id, queue_status, created_at, updated_at FROM queues
WHERE id = qid. -/
def sqlSelectQueues (db : DB) (qid : Int) :
    List (Int × Int × String × Nat × Nat) :=
  (db.filter (fun r => r.id == qid)).map
    (fun r => (r.id, r.clinic_id, r.queue_status, r.created_at, r.updated_at))

/-- The row of the table with the given id, if any (first match). -/
def findQueue (db : DB) (qid : Int) : Option QueueRecord :=
  db.find? (fun r => r.id == qid)

/-- The environment of one script invocation: the database state, the
server time NOW() observed by the statement, and the failure points.
connectOk is false when psycopg2.connect raises a driver error; execOk is
false when cursor.execute raises a driver error; unexpectedErr is true
when a generic (non-driver) exception is raised in the script body after
the cursor is opened. -/
structure World where
  db : DB
  now : Nat
  connectOk : Bool
  execOk : Bool
  unexpectedErr : Bool
deriving Repr, DecidableEq

/-- The final report printed by the updater. -/
inductive UpdReport where
  | updateSuccessful (qid clinic : Int) (status : String) (updatedAt : Nat)
  | noRowsReturned
  | databaseError
  | unexpectedError
deriving Repr, DecidableEq

/-- The final report printed by the reader. -/
inductive ReadReport where
  | verificationSuccessful
  | verificationFailedMismatch (status : String)
  | notFound
  | databaseError
  | unexpectedError
deriving Repr, DecidableEq

/-- Observable outcome of one script invocation. -/
structure RunResult (ρ : Type) where
  ret : Bool
  dbAfter : DB
  committed : Bool
  rolledBack : Bool
  connOpened : Bool
  connClosed : Bool
  cursorOpened : Bool
  cursorClosed : Bool
  raised : Bool
  executed : List (String × List SqlParam)
  report : ρ
deriving Repr, DecidableEq

/-- The update_query string literal of exec1_update_queue.py, verbatim. -/
def update_query : String :=
  "\n            UPDATE queues\n            SET queue_status = %s, updated_at = NOW()\n            WHERE id = %s\n            RETURNING id, clinic_id, queue_status, updated_at\n        "

/-- The select_query string literal of exec2_read_queue.py, verbatim. -/
def select_query : String :=
  "\n            SELECT id, clinic_id, queue_status, created_at, updated_at\n            FROM queues\n            WHERE id = %s\n        "

/-- Whitespace characters occurring in the SQL string literals. -/
def isSqlSpace (c : Char) : Bool :=
  c = ' ' || c = '\n'

/-- Splits a character list into maximal runs of non-whitespace
characters; cur accumulates the current word in reverse. -/
def sqlWordsAux (cur : List Char) : List Char → List String
  | [] => if cur.isEmpty then [] else [String.mk cur.reverse]
  | c :: cs =>
    if isSqlSpace c then
      if cur.isEmpty then sqlWordsAux [] cs
      else String.mk cur.reverse :: sqlWordsAux [] cs
    else sqlWordsAux (c :: cur) cs

/-- The words of an SQL text: maximal runs of non-whitespace characters. -/
def sqlWords (s : String) : List String :=
  sqlWordsAux [] s.data

/-- Joins words with single spaces. -/
def joinWords : List String → String
  | [] => ""
  | [w] => w
  | w :: ws => w ++ " " ++ joinWords ws

/-- Rewrites every occurrence of the psycopg2 placeholder %s to the
generic placeholder of the spec. -/
def rewriteParams : List Char → List Char
  | [] => []
  | '%' :: 's' :: rest => '?' :: rewriteParams rest
  | c :: rest => c :: rewriteParams rest

/-- SQL text normalized to one line with single spaces, with the psycopg2
placeholder %s rewritten to the generic placeholder of the spec. -/
def normalizeSQL (s : String) : String :=
  String.mk (rewriteParams (joinWords (sqlWords s)).data)

/-- exec1_update_queue.py, update_queue_to_paused: connect, open a
cursor, execute the update with parameters (PAUSED, 24), fetchone,
commit, return True when a row was returned and False otherwise; on a
driver error or a generic exception roll back (when the connection
exists) and return False; the finally block closes the cursor and the
connection when they were opened. -/
def update_queue_to_paused (w : World) : RunResult UpdReport :=
  if !w.connectOk then
    { ret := false, dbAfter := w.db, committed := false, rolledBack := false,
      connOpened := false, connClosed := false,
      cursorOpened := false, cursorClosed := false,
      raised := false, executed := [], report := .databaseError }
  else if w.unexpectedErr then
    { ret := false, dbAfter := w.db, committed := false, rolledBack := true,
      connOpened := true, connClosed := true,
      cursorOpened := true, cursorClosed := true,
      raised := false, executed := [], report := .unexpectedError }
  else if !w.execOk then
    { ret := false, dbAfter := w.db, committed := false, rolledBack := true,
      connOpened := true, connClosed := true,
      cursorOpened := true, cursorClosed := true,
      raised := false,
      executed := [(update_query, [.str "PAUSED", .int 24])],
      report := .databaseError }
  else
    let result := (sqlUpdateReturning w.db "PAUSED" w.now 24).head?
    let db2 := sqlUpdateQueues w.db "PAUSED" w.now 24
    match result with
    | some (qid, clinic, status, updatedAt) =>
      { ret := true, dbAfter := db2, committed := true, rolledBack := false,
        connOpened := true, connClosed := true,
        cursorOpened := true, cursorClosed := true,
        raised := false,
        executed := [(update_query, [.str "PAUSED", .int 24])],
        report := .updateSuccessful qid clinic status updatedAt }
    | none =>
      { ret := false, dbAfter := db2, committed := true, rolledBack := false,
        connOpened := true, connClosed := true,
        cursorOpened := true, cursorClosed := true,
        raised := false,
        executed := [(update_query, [.str "PAUSED", .int 24])],
        report := .noRowsReturned }

/-- exec2_read_queue.py, read_queue_status: connect, open a cursor,
execute the select with parameter (24,), fetchone; when a row is found
return True exactly when its queue_status equals PAUSED (printing a
mismatch report otherwise), when no row is found print a not-found
report and return False; driver errors and generic exceptions are caught
and yield False with no rollback; the finally block closes the cursor
and the connection when they were opened. -/
def read_queue_status (w : World) : RunResult ReadReport :=
  if !w.connectOk then
    { ret := false, dbAfter := w.db, committed := false, rolledBack := false,
      connOpened := false, connClosed := false,
      cursorOpened := false, cursorClosed := false,
      raised := false, executed := [], report := .databaseError }
  else if w.unexpectedErr then
    { ret := false, dbAfter := w.db, committed := false, rolledBack := false,
      connOpened := true, connClosed := true,
      cursorOpened := true, cursorClosed := true,
      raised := false, executed := [], report := .unexpectedError }
  else if !w.execOk then
    { ret := false, dbAfter := w.db, committed := false, rolledBack := false,
      connOpened := true, connClosed := true,
      cursorOpened := true, cursorClosed := true,
      raised := false,
      executed := [(select_query, [.int 24])],
      report := .databaseError }
  else
    match (sqlSelectQueues w.db 24).head? with
    | some (_, _, queue_status, _, _) =>
      if queue_status = "PAUSED" then
        { ret := true, dbAfter := w.db, committed := false, rolledBack := false,
          connOpened := true, connClosed := true,
          cursorOpened := true, cursorClosed := true,
          raised := false,
          executed := [(select_query, [.int 24])],
          report := .verificationSuccessful }
      else
        { ret := false, dbAfter := w.db, committed := false, rolledBack := false,
          connOpened := true, connClosed := true,
          cursorOpened := true, cursorClosed := true,
          raised := false,
          executed := [(select_query, [.int 24])],
          report := .verificationFailedMismatch queue_status }
    | none =>
      { ret := false, dbAfter := w.db, committed := false, rolledBack := false,
        connOpened := true, connClosed := true,
        cursorOpened := true, cursorClosed := true,
        raised := false,
        executed := [(select_query, [.int 24])],
        report := .notFound }

/-- exit(0 if success else 1) at the bottom of each script. -/
def exitCode (success : Bool) : Nat :=
  if success then 0 else 1

/-- Process exit code of exec1_update_queue.py run in world w. -/
def exec1_main (w : World) : Nat :=
  exitCode (update_queue_to_paused w).ret

/-- Process exit code of exec2_read_queue.py run in world w. -/
def exec2_main (w : World) : Nat :=
  exitCode (read_queue_status w).ret

/-! ## Helper lemmas -/

theorem head?_filterMap_eq_find? {α β : Type} (p : α → Bool) (f : α → β)
    (l : List α) : ((l.filter p).map f).head? = (l.find? p).map f := by
  induction l with
  | nil => rfl
  | cons a l ih =>
    cases h : p a
    · simp [List.filter_cons, List.find?_cons, h, ih]
    · simp [List.filter_cons, List.find?_cons, h]

theorem sqlUpdateReturning_head? (db : DB) (s : String) (now : Nat) (qid : Int) :
    (sqlUpdateReturning db s now qid).head? =
      (findQueue db qid).map (fun r => (r.id, r.clinic_id, s, now)) := by
  unfold sqlUpdateReturning findQueue
  exact head?_filterMap_eq_find? _ _ db

theorem sqlSelectQueues_head? (db : DB) (qid : Int) :
    (sqlSelectQueues db qid).head? =
      (findQueue db qid).map
        (fun r => (r.id, r.clinic_id, r.queue_status, r.created_at, r.updated_at)) := by
  unfold sqlSelectQueues findQueue
  exact head?_filterMap_eq_find? _ _ db

theorem findQueue_sqlUpdateQueues (db : DB) (s : String) (now : Nat) (qid : Int) :
    findQueue (sqlUpdateQueues db s now qid) qid =
      (findQueue db qid).map
        (fun r => { r with queue_status := s, updated_at := now }) := by
  induction db with
  | nil => rfl
  | cons a l ih =>
    by_cases h : a.id = qid
    · simp [sqlUpdateQueues, findQueue, List.find?_cons, h]
    · have hb : (a.id == qid) = false := by simpa using h
      simpa [sqlUpdateQueues, findQueue, List.find?_cons, h, hb] using ih

theorem sqlUpdateQueues_of_none (db : DB) (s : String) (now : Nat) (qid : Int)
    (h : findQueue db qid = none) : sqlUpdateQueues db s now qid = db := by
  induction db with
  | nil => rfl
  | cons a l ih =>
    cases hb : (a.id == qid) with
    | true =>
      exfalso
      simp [findQueue, List.find?_cons, hb] at h
    | false =>
      have h' : ¬ (a.id = qid) := by simpa using hb
      have hl : findQueue l qid = none := by
        simpa [findQueue, List.find?_cons, hb] using h
      simp [sqlUpdateQueues, h', List.map_cons]
      simpa [sqlUpdateQueues] using ih hl

theorem upd_shape (w : World) :
    (update_queue_to_paused w).raised = false ∧
    (update_queue_to_paused w).connClosed = (update_queue_to_paused w).connOpened ∧
    (update_queue_to_paused w).cursorClosed = (update_queue_to_paused w).cursorOpened := by
  rcases w with ⟨db, now, c, e, u⟩
  cases c
  · simp [update_queue_to_paused]
  · cases u
    · cases e
      · simp [update_queue_to_paused]
      · rcases h : (sqlUpdateReturning db "PAUSED" now 24).head? with _ | ⟨a, b, s, t⟩ <;>
          simp [update_queue_to_paused, h]
    · simp [update_queue_to_paused]

theorem read_shape (w : World) :
    (read_queue_status w).raised = false ∧
    (read_queue_status w).dbAfter = w.db ∧
    (read_queue_status w).committed = false ∧
    (read_queue_status w).rolledBack = false ∧
    (read_queue_status w).connClosed = (read_queue_status w).connOpened ∧
    (read_queue_status w).cursorClosed = (read_queue_status w).cursorOpened := by
  rcases w with ⟨db, now, c, e, u⟩
  cases c
  · simp [read_queue_status]
  · cases u
    · cases e
      · simp [read_queue_status]
      · rcases h : (sqlSelectQueues db 24).head? with _ | ⟨a, b, s, t, v⟩
        · simp [read_queue_status, h]
        · by_cases hs : s = "PAUSED" <;> simp [read_queue_status, h, hs]
    · simp [read_queue_status]

theorem upd_dbAfter_good (w : World)
    (hc : w.connectOk = true) (he : w.execOk = true) (hu : w.unexpectedErr = false) :
    (update_queue_to_paused w).dbAfter = sqlUpdateQueues w.db "PAUSED" w.now 24 := by
  rcases hf : findQueue w.db 24 with _ | r <;>
    simp [update_queue_to_paused, hc, he, hu, sqlUpdateReturning_head?, hf]

theorem upd_ret_good (w : World) (r : QueueRecord)
    (hc : w.connectOk = true) (he : w.execOk = true) (hu : w.unexpectedErr = false)
    (hr : findQueue w.db 24 = some r) :
    (update_queue_to_paused w).ret = true := by
  simp [update_queue_to_paused, hc, he, hu, sqlUpdateReturning_head?, hr]

/-! ## Claim theorems -/

/-- C1, counterexample to the claim as stated: on a database with no row
of id 24 (and no driver failure), the updater returns the failure outcome
but the transaction is committed, not rolled back: the script calls
conn.commit() before inspecting the fetched row, and the no-row branch
performs no rollback. -/
theorem upd_no_row_commits_cex :
    (update_queue_to_paused
        { db := [], now := 5, connectOk := true, execOk := true,
          unexpectedErr := false }).ret = false ∧
    (update_queue_to_paused
        { db := [], now := 5, connectOk := true, execOk := true,
          unexpectedErr := false }).committed = true ∧
    (update_queue_to_paused
        { db := [], now := 5, connectOk := true, execOk := true,
          unexpectedErr := false }).rolledBack = false := by
  decide

/-- C1, amended: if no row matches id 24 and the connection and statement
succeed, the updater returns a failure outcome, the no-row condition is
reported (not raised) as the noRowsReturned report, the surrounding
transaction is committed as a no-op (it is not rolled back), and no
persistent change is made to the database. -/
theorem upd_no_row_failure (w : World)
    (hc : w.connectOk = true) (he : w.execOk = true) (hu : w.unexpectedErr = false)
    (hn : findQueue w.db 24 = none) :
    (update_queue_to_paused w).ret = false ∧
    (update_queue_to_paused w).report = UpdReport.noRowsReturned ∧
    (update_queue_to_paused w).raised = false ∧
    (update_queue_to_paused w).committed = true ∧
    (update_queue_to_paused w).rolledBack = false ∧
    (update_queue_to_paused w).dbAfter = w.db := by
  have hdb := sqlUpdateQueues_of_none w.db "PAUSED" w.now 24 hn
  simp [update_queue_to_paused, hc, he, hu, sqlUpdateReturning_head?, hn, hdb]

/-- C1 witness: the amended statement instantiated at an empty database. -/
theorem upd_no_row_failure_witness :
    (update_queue_to_paused
        { db := [], now := 5, connectOk := true, execOk := true,
          unexpectedErr := false }).ret = false ∧
    (update_queue_to_paused
        { db := [], now := 5, connectOk := true, execOk := true,
          unexpectedErr := false }).report = UpdReport.noRowsReturned ∧
    (update_queue_to_paused
        { db := [], now := 5, connectOk := true, execOk := true,
          unexpectedErr := false }).raised = false ∧
    (update_queue_to_paused
        { db := [], now := 5, connectOk := true, execOk := true,
          unexpectedErr := false }).committed = true ∧
    (update_queue_to_paused
        { db := [], now := 5, connectOk := true, execOk := true,
          unexpectedErr := false }).rolledBack = false ∧
    (update_queue_to_paused
        { db := [], now := 5, connectOk := true, execOk := true,
          unexpectedErr := false }).dbAfter = [] :=
  upd_no_row_failure _ rfl rfl rfl rfl

/-- C2: when a row with id 24 exists and connection, statement and body
succeed, the updater returns True, executes the single parameterized
update statement atomically, reports the post-update id (24), clinic_id,
queue_status (PAUSED) and updated_at (the server time), and afterwards
the row has queue_status PAUSED and updated_at equal to the server
time. -/
theorem upd_success (w : World) (r : QueueRecord)
    (hc : w.connectOk = true) (he : w.execOk = true) (hu : w.unexpectedErr = false)
    (hr : findQueue w.db 24 = some r) :
    (update_queue_to_paused w).ret = true ∧
    (update_queue_to_paused w).report =
      UpdReport.updateSuccessful 24 r.clinic_id "PAUSED" w.now ∧
    (update_queue_to_paused w).committed = true ∧
    (update_queue_to_paused w).executed =
      [(update_query, [SqlParam.str "PAUSED", SqlParam.int 24])] ∧
    findQueue (update_queue_to_paused w).dbAfter 24 =
      some { r with queue_status := "PAUSED", updated_at := w.now } := by
  have hid : r.id = 24 := by
    unfold findQueue at hr
    have h := List.find?_some hr
    simpa using h
  simp [update_queue_to_paused, hc, he, hu, sqlUpdateReturning_head?, hr, hid,
    findQueue_sqlUpdateQueues]

/-- C2 witness: the statement instantiated at a one-row database holding
the row (24, 7, ACTIVE). -/
theorem upd_success_witness :
    (update_queue_to_paused
        { db := [{ id := 24, clinic_id := 7, queue_status := "ACTIVE",
                   created_at := 1, updated_at := 2 }],
          now := 5, connectOk := true, execOk := true,
          unexpectedErr := false }).ret = true ∧
    (update_queue_to_paused
        { db := [{ id := 24, clinic_id := 7, queue_status := "ACTIVE",
                   created_at := 1, updated_at := 2 }],
          now := 5, connectOk := true, execOk := true,
          unexpectedErr := false }).report =
      UpdReport.updateSuccessful 24 7 "PAUSED" 5 ∧
    (update_queue_to_paused
        { db := [{ id := 24, clinic_id := 7, queue_status := "ACTIVE",
                   created_at := 1, updated_at := 2 }],
          now := 5, connectOk := true, execOk := true,
          unexpectedErr := false }).committed = true ∧
    (update_queue_to_paused
        { db := [{ id := 24, clinic_id := 7, queue_status := "ACTIVE",
                   created_at := 1, updated_at := 2 }],
          now := 5, connectOk := true, execOk := true,
          unexpectedErr := false }).executed =
      [(update_query, [SqlParam.str "PAUSED", SqlParam.int 24])] ∧
    findQueue (update_queue_to_paused
        { db := [{ id := 24, clinic_id := 7, queue_status := "ACTIVE",
                   created_at := 1, updated_at := 2 }],
          now := 5, connectOk := true, execOk := true,
          unexpectedErr := false }).dbAfter 24 =
      some { id := 24, clinic_id := 7, queue_status := "PAUSED",
             created_at := 1, updated_at := 5 } :=
  upd_success _
    { id := 24, clinic_id := 7, queue_status := "ACTIVE",
      created_at := 1, updated_at := 2 }
    rfl rfl rfl rfl

/-- C3: the reader's verification outcome is True exactly when the
connection and statement succeed, a row of id 24 is found, and that
row's queue_status is the literal PAUSED under exact string equality; in
every other case (including a missing row or a differing status) the
outcome is False. -/
theorem read_verification_iff (w : World) :
    (read_queue_status w).ret = true ↔
      (w.connectOk = true ∧ w.unexpectedErr = false ∧ w.execOk = true ∧
        ∃ r, findQueue w.db 24 = some r ∧ r.queue_status = "PAUSED") := by
  rcases w with ⟨db, now, c, e, u⟩
  cases c
  · simp [read_queue_status]
  · cases u
    · cases e
      · simp [read_queue_status]
      · cases hf : findQueue db 24 with
        | none => simp [read_queue_status, sqlSelectQueues_head?, hf]
        | some r =>
          by_cases hs : r.queue_status = "PAUSED" <;>
            simp [read_queue_status, sqlSelectQueues_head?, hf, hs]
    · simp [read_queue_status]

/-- C4: in every world, both scripts contain every error (no exception
escapes the top-level function), and the process exit code is 0 exactly
on a True return and 1 exactly on a False return, so it is always 0 or
1. -/
theorem exit_codes_contained (w : World) :
    (update_queue_to_paused w).raised = false ∧
    (read_queue_status w).raised = false ∧
    exec1_main w = (if (update_queue_to_paused w).ret then 0 else 1) ∧
    exec2_main w = (if (read_queue_status w).ret then 0 else 1) ∧
    (exec1_main w = 0 ∨ exec1_main w = 1) ∧
    (exec2_main w = 0 ∨ exec2_main w = 1) := by
  refine ⟨(upd_shape w).1, (read_shape w).1, rfl, rfl, ?_, ?_⟩
  · cases h : (update_queue_to_paused w).ret <;>
      simp [exec1_main, exitCode, h]
  · cases h : (read_queue_status w).ret <;>
      simp [exec2_main, exitCode, h]

/-- C5: when connection and statement succeed, a missing row of id 24
makes the reader report the distinguished notFound outcome, while an
existing row whose status differs from PAUSED makes it report the
mismatch outcome carrying that status; the two reports are distinct, and
neither case raises an exception. -/
theorem read_distinct_failures (w : World)
    (hc : w.connectOk = true) (he : w.execOk = true) (hu : w.unexpectedErr = false) :
    (findQueue w.db 24 = none →
      (read_queue_status w).report = ReadReport.notFound) ∧
    (∀ r, findQueue w.db 24 = some r → r.queue_status ≠ "PAUSED" →
      (read_queue_status w).report =
        ReadReport.verificationFailedMismatch r.queue_status) ∧
    (read_queue_status w).raised = false ∧
    (∀ s, ReadReport.notFound ≠ ReadReport.verificationFailedMismatch s) := by
  refine ⟨?_, ?_, (read_shape w).1, ?_⟩
  · intro hn
    simp [read_queue_status, hc, he, hu, sqlSelectQueues_head?, hn]
  · intro r hr hs
    simp [read_queue_status, hc, he, hu, sqlSelectQueues_head?, hr, hs]
  · intro s
    simp

/-- C5 witness: on a one-row database holding (24, 7, ACTIVE) the reader
reports the mismatch outcome carrying ACTIVE. -/
theorem read_distinct_failures_witness :
    (read_queue_status
        { db := [{ id := 24, clinic_id := 7, queue_status := "ACTIVE",
                   created_at := 1, updated_at := 2 }],
          now := 5, connectOk := true, execOk := true,
          unexpectedErr := false }).report =
      ReadReport.verificationFailedMismatch "ACTIVE" :=
  (read_distinct_failures
      { db := [{ id := 24, clinic_id := 7, queue_status := "ACTIVE",
                 created_at := 1, updated_at := 2 }],
        now := 5, connectOk := true, execOk := true,
        unexpectedErr := false } rfl rfl rfl).2.1
    { id := 24, clinic_id := 7, queue_status := "ACTIVE",
      created_at := 1, updated_at := 2 }
    rfl (by decide)

/-- C6: whenever the connection succeeds and no generic exception cuts
the body short, the updater executes exactly the one parameterized
statement update_query with bound parameters (PAUSED, 24) and the reader
exactly the one parameterized statement select_query with bound
parameter (24,); normalized to one line (and with the psycopg2
placeholder %s written as the generic placeholder), the two statement
texts are the ones stated by the spec. -/
theorem one_parameterized_statement (w : World)
    (hc : w.connectOk = true) (hu : w.unexpectedErr = false) :
    (update_queue_to_paused w).executed =
      [(update_query, [SqlParam.str "PAUSED", SqlParam.int 24])] ∧
    (read_queue_status w).executed = [(select_query, [SqlParam.int 24])] ∧
    normalizeSQL update_query =
      "UPDATE queues SET queue_status = ?, updated_at = NOW() WHERE id = ? RETURNING id, clinic_id, queue_status, updated_at" ∧
    normalizeSQL select_query =
      "SELECT id, clinic_id, queue_status, created_at, updated_at FROM queues WHERE id = ?" := by
  refine ⟨?_, ?_, by rfl, by rfl⟩
  · cases he : w.execOk
    · simp [update_queue_to_paused, hc, hu, he]
    · rcases h : (sqlUpdateReturning w.db "PAUSED" w.now 24).head? with _ | ⟨a, b, s, t⟩ <;>
        simp [update_queue_to_paused, hc, hu, he, h]
  · cases he : w.execOk
    · simp [read_queue_status, hc, hu, he]
    · rcases h : (sqlSelectQueues w.db 24).head? with _ | ⟨a, b, s, t, v⟩
      · simp [read_queue_status, hc, hu, he, h]
      · by_cases hs : s = "PAUSED" <;> simp [read_queue_status, hc, hu, he, h, hs]

/-- C6 witness: the statement instantiated at an empty database. -/
theorem one_parameterized_statement_witness :
    (update_queue_to_paused
        { db := [], now := 0, connectOk := true, execOk := true,
          unexpectedErr := false }).executed =
      [(update_query, [SqlParam.str "PAUSED", SqlParam.int 24])] ∧
    (read_queue_status
        { db := [], now := 0, connectOk := true, execOk := true,
          unexpectedErr := false }).executed =
      [(select_query, [SqlParam.int 24])] ∧
    normalizeSQL update_query =
      "UPDATE queues SET queue_status = ?, updated_at = NOW() WHERE id = ? RETURNING id, clinic_id, queue_status, updated_at" ∧
    normalizeSQL select_query =
      "SELECT id, clinic_id, queue_status, created_at, updated_at FROM queues WHERE id = ?" :=
  ⟨(one_parameterized_statement
      { db := [], now := 0, connectOk := true, execOk := true,
        unexpectedErr := false } rfl rfl).1,
   (one_parameterized_statement
      { db := [], now := 0, connectOk := true, execOk := true,
        unexpectedErr := false } rfl rfl).2⟩

/-- C7: for every world, the reader leaves the database unchanged and
never commits or rolls back; the connection and cursor are closed
exactly when they were opened. -/
theorem read_no_mutation (w : World) :
    (read_queue_status w).dbAfter = w.db ∧
    (read_queue_status w).committed = false ∧
    (read_queue_status w).rolledBack = false ∧
    (read_queue_status w).connClosed = (read_queue_status w).connOpened ∧
    (read_queue_status w).cursorClosed = (read_queue_status w).cursorOpened :=
  ⟨(read_shape w).2.1, (read_shape w).2.2.1, (read_shape w).2.2.2.1,
   (read_shape w).2.2.2.2.1, (read_shape w).2.2.2.2.2⟩

/-- C8: for every world, each script closes its cursor and its
connection exactly when they were opened, on success and on every
failure path alike. -/
theorem resources_released (w : World) :
    (update_queue_to_paused w).connClosed = (update_queue_to_paused w).connOpened ∧
    (update_queue_to_paused w).cursorClosed = (update_queue_to_paused w).cursorOpened ∧
    (read_queue_status w).connClosed = (read_queue_status w).connOpened ∧
    (read_queue_status w).cursorClosed = (read_queue_status w).cursorOpened :=
  ⟨(upd_shape w).2.1, (upd_shape w).2.2,
   (read_shape w).2.2.2.2.1, (read_shape w).2.2.2.2.2⟩

/-- C9: invoking the updater twice in succession on an existing row 24
(the second invocation at a strictly later server time) returns True
both times and leaves the row with queue_status PAUSED after each call,
with updated_at equal to the server time of the respective call, so the
timestamp strictly advances between the two calls. -/
theorem upd_idempotent (w1 : World) (n2 : Nat) (r : QueueRecord)
    (hc : w1.connectOk = true) (he : w1.execOk = true) (hu : w1.unexpectedErr = false)
    (hr : findQueue w1.db 24 = some r) (ht : w1.now < n2) :
    (update_queue_to_paused w1).ret = true ∧
    findQueue (update_queue_to_paused w1).dbAfter 24 =
      some { r with queue_status := "PAUSED", updated_at := w1.now } ∧
    (update_queue_to_paused
        { db := (update_queue_to_paused w1).dbAfter, now := n2,
          connectOk := true, execOk := true, unexpectedErr := false }).ret = true ∧
    findQueue (update_queue_to_paused
        { db := (update_queue_to_paused w1).dbAfter, now := n2,
          connectOk := true, execOk := true, unexpectedErr := false }).dbAfter 24 =
      some { r with queue_status := "PAUSED", updated_at := n2 } ∧
    w1.now < n2 := by
  have hdb1 := upd_dbAfter_good w1 hc he hu
  have hfind1 : findQueue (update_queue_to_paused w1).dbAfter 24 =
      some { r with queue_status := "PAUSED", updated_at := w1.now } := by
    rw [hdb1, findQueue_sqlUpdateQueues, hr]
    rfl
  have hdb2 := upd_dbAfter_good
    { db := (update_queue_to_paused w1).dbAfter, now := n2,
      connectOk := true, execOk := true, unexpectedErr := false } rfl rfl rfl
  refine ⟨upd_ret_good w1 r hc he hu hr, hfind1,
    upd_ret_good _ _ rfl rfl rfl hfind1, ?_, ht⟩
  rw [hdb2, findQueue_sqlUpdateQueues, hfind1]
  rfl

/-- C9 witness: the statement instantiated at a one-row database holding
(24, 7, ACTIVE), first call at server time 5, second at server time 9. -/
theorem upd_idempotent_witness :
    (update_queue_to_paused
        { db := [{ id := 24, clinic_id := 7, queue_status := "ACTIVE",
                   created_at := 1, updated_at := 2 }],
          now := 5, connectOk := true, execOk := true,
          unexpectedErr := false }).ret = true ∧
    findQueue (update_queue_to_paused
        { db := [{ id := 24, clinic_id := 7, queue_status := "ACTIVE",
                   created_at := 1, updated_at := 2 }],
          now := 5, connectOk := true, execOk := true,
          unexpectedErr := false }).dbAfter 24 =
      some { id := 24, clinic_id := 7, queue_status := "PAUSED",
             created_at := 1, updated_at := 5 } ∧
    (update_queue_to_paused
        { db := (update_queue_to_paused
            { db := [{ id := 24, clinic_id := 7, queue_status := "ACTIVE",
                       created_at := 1, updated_at := 2 }],
              now := 5, connectOk := true, execOk := true,
              unexpectedErr := false }).dbAfter, now := 9,
          connectOk := true, execOk := true, unexpectedErr := false }).ret = true ∧
    findQueue (update_queue_to_paused
        { db := (update_queue_to_paused
            { db := [{ id := 24, clinic_id := 7, queue_status := "ACTIVE",
                       created_at := 1, updated_at := 2 }],
              now := 5, connectOk := true, execOk := true,
              unexpectedErr := false }).dbAfter, now := 9,
          connectOk := true, execOk := true, unexpectedErr := false }).dbAfter 24 =
      some { id := 24, clinic_id := 7, queue_status := "PAUSED",
             created_at := 1, updated_at := 9 } ∧
    (5 : Nat) < 9 :=
  upd_idempotent
    { db := [{ id := 24, clinic_id := 7, queue_status := "ACTIVE",
               created_at := 1, updated_at := 2 }],
      now := 5, connectOk := true, execOk := true, unexpectedErr := false }
    9
    { id := 24, clinic_id := 7, queue_status := "ACTIVE",
      created_at := 1, updated_at := 2 }
    rfl rfl rfl rfl (by decide)

/-- C10: when establishing the connection itself fails, both scripts
return False (exit code 1) without raising; no rollback is attempted, no
cursor or connection is ever opened or closed, and the database is
untouched: every cleanup in the except and finally paths is guarded by
the existence check on the handle. -/
theorem connect_failure_guarded (w : World) (h : w.connectOk = false) :
    (update_queue_to_paused w).ret = false ∧
    (read_queue_status w).ret = false ∧
    (update_queue_to_paused w).raised = false ∧
    (read_queue_status w).raised = false ∧
    (update_queue_to_paused w).rolledBack = false ∧
    (read_queue_status w).rolledBack = false ∧
    (update_queue_to_paused w).connOpened = false ∧
    (update_queue_to_paused w).connClosed = false ∧
    (update_queue_to_paused w).cursorOpened = false ∧
    (update_queue_to_paused w).cursorClosed = false ∧
    (read_queue_status w).connOpened = false ∧
    (read_queue_status w).connClosed = false ∧
    (read_queue_status w).cursorOpened = false ∧
    (read_queue_status w).cursorClosed = false ∧
    (update_queue_to_paused w).dbAfter = w.db ∧
    (read_queue_status w).dbAfter = w.db ∧
    exec1_main w = 1 ∧ exec2_main w = 1 := by
  simp [update_queue_to_paused, read_queue_status, exec1_main, exec2_main,
    exitCode, h]

/-- C10 witness: the statement instantiated at an empty database with a
failing connection. -/
theorem connect_failure_guarded_witness :
    (update_queue_to_paused
        { db := [], now := 0, connectOk := false, execOk := true,
          unexpectedErr := false }).ret = false ∧
    (read_queue_status
        { db := [], now := 0, connectOk := false, execOk := true,
          unexpectedErr := false }).ret = false ∧
    (update_queue_to_paused
        { db := [], now := 0, connectOk := false, execOk := true,
          unexpectedErr := false }).raised = false ∧
    (read_queue_status
        { db := [], now := 0, connectOk := false, execOk := true,
          unexpectedErr := false }).raised = false ∧
    (update_queue_to_paused
        { db := [], now := 0, connectOk := false, execOk := true,
          unexpectedErr := false }).rolledBack = false ∧
    (read_queue_status
        { db := [], now := 0, connectOk := false, execOk := true,
          unexpectedErr := false }).rolledBack = false ∧
    (update_queue_to_paused
        { db := [], now := 0, connectOk := false, execOk := true,
          unexpectedErr := false }).connOpened = false ∧
    (update_queue_to_paused
        { db := [], now := 0, connectOk := false, execOk := true,
          unexpectedErr := false }).connClosed = false ∧
    (update_queue_to_paused
        { db := [], now := 0, connectOk := false, execOk := true,
          unexpectedErr := false }).cursorOpened = false ∧
    (update_queue_to_paused
        { db := [], now := 0, connectOk := false, execOk := true,
          unexpectedErr := false }).cursorClosed = false ∧
    (read_queue_status
        { db := [], now := 0, connectOk := false, execOk := true,
          unexpectedErr := false }).connOpened = false ∧
    (read_queue_status
        { db := [], now := 0, connectOk := false, execOk := true,
          unexpectedErr := false }).connClosed = false ∧
    (read_queue_status
        { db := [], now := 0, connectOk := false, execOk := true,
          unexpectedErr := false }).cursorOpened = false ∧
    (read_queue_status
        { db := [], now := 0, connectOk := false, execOk := true,
          unexpectedErr := false }).cursorClosed = false ∧
    (update_queue_to_paused
        { db := [], now := 0, connectOk := false, execOk := true,
          unexpectedErr := false }).dbAfter = [] ∧
    (read_queue_status
        { db := [], now := 0, connectOk := false, execOk := true,
          unexpectedErr := false }).dbAfter = [] ∧
    exec1_main
        { db := [], now := 0, connectOk := false, execOk := true,
          unexpectedErr := false } = 1 ∧
    exec2_main
        { db := [], now := 0, connectOk := false, execOk := true,
          unexpectedErr := false } = 1 :=
  connect_failure_guarded
    { db := [], now := 0, connectOk := false, execOk := true,
      unexpectedErr := false } rfl
